import Mathlib

/-!
Verification of the autonomous agent orchestration engine of WinnerOfDay
(`src/winner_of_day/services/agent_runtime_service.py`,
`src/winner_of_day/agent/models.py`, `src/winner_of_day/agent/checkpoint.py`,
`src/winner_of_day/agent/tools/vk_tools.py`).

The Python code is shallowly embedded: JSON-ish Python runtime values become
the inductive `PyValue`, dataclasses become structures, coroutines become pure
functions over explicit state, exceptions become `Except`, and the concurrent
entry point `handle_incoming_message` becomes a small-step interpreter over
explicit task phases cut at the `await` suspension points.
-/

namespace WinnerOfDay

/-- A JSON-ish Python runtime value, as produced by `json.loads` and passed
through the agent decision plumbing.  JSON numbers are modelled as integers
(the decision schema only uses integer fields). -/
inductive PyValue where
  | none : PyValue
  | bool (b : Bool) : PyValue
  | int (n : Int) : PyValue
  | str (s : String) : PyValue
  | list (items : List PyValue) : PyValue
  | dict (entries : List (String × PyValue)) : PyValue

/-! Python string primitives, modelled over the character list of a `String`
so that every definition reduces in the kernel (whitespace is the ASCII
whitespace set; Python's unicode-aware variants agree on the inputs the agent
handles). -/

/-- Python `s.strip()`. -/
def pyStrip (s : String) : String :=
  String.mk
    (((s.toList.dropWhile Char.isWhitespace).reverse.dropWhile Char.isWhitespace).reverse)

/-- Python `s.lower()`. -/
def pyLower (s : String) : String :=
  String.mk (s.toList.map Char.toLower)

/-- Python `s[:n]` for `n ≥ 0`. -/
def pyTakeChars (s : String) (n : Nat) : String :=
  String.mk (s.toList.take n)

/-- Python `s[:-n]` for `0 < n ≤ len(s)`. -/
def pyDropRight (s : String) (n : Nat) : String :=
  String.mk (s.toList.take (s.toList.length - n))

/-- Python `s.startswith(t)`. -/
def strStartsWith (s t : String) : Bool :=
  t.toList.isPrefixOf s.toList

/-- Python `s.endswith(t)`. -/
def strEndsWith (s t : String) : Bool :=
  t.toList.reverse.isPrefixOf s.toList.reverse

/-- Python `c in s` for a single character. -/
def strContainsChar (s : String) (c : Char) : Bool :=
  s.toList.contains c

/-- Python truthiness (`bool(v)`) on the modelled values. -/
def pyTruthy : PyValue → Bool
  | .none => false
  | .bool b => b
  | .int n => n != 0
  | .str s => s != ""
  | .list items => !items.isEmpty
  | .dict entries => !entries.isEmpty

/-- Python `repr` on the modelled values (container reprs are modelled without
inner string escaping; only their bracketed shape matters downstream). -/
def pyRepr : PyValue → String
  | .none => "None"
  | .bool true => "True"
  | .bool false => "False"
  | .int n => toString n
  | .str s => "\x27" ++ s ++ "\x27"
  | .list items =>
      "[" ++ String.intercalate ", " (items.attach.map fun x => pyRepr x.1) ++ "]"
  | .dict entries =>
      "\x7b" ++ String.intercalate ", "
        (entries.attach.map fun x => "\x27" ++ x.1.1 ++ "\x27: " ++ pyRepr x.1.2) ++ "\x7d"
decreasing_by
  · have := List.sizeOf_lt_of_mem x.2
    simp only [PyValue.list.sizeOf_spec]
    omega
  · have h1 := List.sizeOf_lt_of_mem x.2
    have h2 : sizeOf x.1.2 < sizeOf x.1 := by
      obtain ⟨a, b⟩ := x.1
      simp only [Prod.mk.sizeOf_spec]
      omega
    simp only [PyValue.dict.sizeOf_spec]
    omega

/-- Python `str(v)` on the modelled values. -/
def pyStr (v : PyValue) : String :=
  match v with
  | .str s => s
  | _ => pyRepr v

/-- Decimal digit run accepted by Python `int(str)` (underscore separators are
not modelled). -/
def decDigits? (l : List Char) : Option Nat :=
  match l with
  | [] => Option.none
  | _ =>
    l.foldl (fun acc c =>
      acc.bind fun n => if c.isDigit then some (10 * n + (c.toNat - 48)) else Option.none)
      (some 0)

/-- Python `int(s)` on a string: strip whitespace, optional sign, decimal
digits; `Option.none` models the raised `ValueError`. -/
def pyIntOfString? (s : String) : Option Int :=
  match (pyStrip s).toList with
  | [] => Option.none
  | c :: rest =>
    if c = '-' then (decDigits? rest).map (fun n => -(n : Int))
    else if c = '+' then (decDigits? rest).map (fun n => (n : Int))
    else (decDigits? (c :: rest)).map (fun n => (n : Int))

/-- Python `int(v)`; `Option.none` models the raised `TypeError`/`ValueError`. -/
def pyInt? : PyValue → Option Int
  | .int n => some n
  | .bool b => some (if b then 1 else 0)
  | .str s => pyIntOfString? s
  | _ => Option.none

/-- `models._coerce_positive_int`: coerce to `int`, map failures and
non-positive results to `0`. -/
def coercePositiveInt (v : PyValue) : Int :=
  match pyInt? v with
  | Option.none => 0
  | some n => if n > 0 then n else 0

/-- `dict.get(key)` on the modelled dict (absent key yields Python `None`);
later duplicate entries override earlier ones as in Python dict construction. -/
def dictGet (entries : List (String × PyValue)) (key : String) : PyValue :=
  match entries.reverse.find? (fun kv => kv.1 == key) with
  | some kv => kv.2
  | Option.none => PyValue.none

/-- The Python idiom `str(v or d)` for a string default `d`. -/
def pyStrOr (v : PyValue) (d : String) : String :=
  if pyTruthy v then pyStr v else d

/-- `models.AgentDecision` (dataclass defaults included). -/
structure AgentDecision where
  action : String := "none"
  text : String := ""
  reply_to_cmid : Int := 0
  target_cmid : Int := 0
  reaction_id : Int := 0
  reason : String := ""
deriving DecidableEq

/-- `models.AgentDecision.from_value` on an untrusted value. -/
def AgentDecision.from_value (value : PyValue) : AgentDecision :=
  match value with
  | .dict entries =>
    let actionRaw := pyLower (pyStrip (pyStrOr (dictGet entries "action") "none"))
    let action :=
      if actionRaw = "none" ∨ actionRaw = "send_message" ∨ actionRaw = "react"
      then actionRaw else "none"
    { action := action
      text := pyStrip (pyStrOr (dictGet entries "text") "")
      reply_to_cmid := coercePositiveInt (dictGet entries "reply_to_cmid")
      target_cmid := coercePositiveInt (dictGet entries "target_cmid")
      reaction_id := coercePositiveInt (dictGet entries "reaction_id")
      reason := pyStrip (pyStrOr (dictGet entries "reason") "") }
  | _ => { action := "none", reason := "invalid_payload" }

/-- `models.AgentDecision.to_dict`. -/
def AgentDecision.to_dict (d : AgentDecision) : PyValue :=
  .dict [("action", .str d.action), ("text", .str d.text),
         ("reply_to_cmid", .int d.reply_to_cmid), ("target_cmid", .int d.target_cmid),
         ("reaction_id", .int d.reaction_id), ("reason", .str d.reason)]

/-- `models.AgentActionResult`. -/
structure AgentActionResult where
  executed : Bool := false
  vk_method : String := ""
  vk_response_id : Int := 0
  error : String := ""
deriving DecidableEq

/-- `models.AgentActionResult.from_value`. -/
def AgentActionResult.from_value (value : PyValue) : AgentActionResult :=
  match value with
  | .dict entries =>
    { executed := pyTruthy (dictGet entries "executed")
      vk_method := pyStrOr (dictGet entries "vk_method") ""
      vk_response_id := coercePositiveInt (dictGet entries "vk_response_id")
      error := pyStrip (pyStrOr (dictGet entries "error") "") }
  | _ => {}

/-- `models.AgentActionResult.to_dict`. -/
def AgentActionResult.to_dict (r : AgentActionResult) : PyValue :=
  .dict [("executed", .bool r.executed), ("vk_method", .str r.vk_method),
         ("vk_response_id", .int r.vk_response_id), ("error", .str r.error)]

/-- The agent-relevant configuration surface of `AgentRuntimeService`, holding
the values the `_settings_get`-based getters produce before their final
clamping (the clamps are the `agent_*` functions below). -/
structure RuntimeConfig where
  enabled : Bool := false
  engine : String := "legacy"
  mode : String := "active"
  probability : ℚ := 35 / 100
  cooldown_seconds : Int := 120
  min_messages_since_bot : Int := 4
  context_limit : Int := 14
  max_tokens : Int := 260
  max_chars : Int := 260
  allow_reactions : Bool := true
  allow_thread_reply : Bool := true
  system_prompt : String := ""
  venice_model : String := "venice-uncensored"
  venice_temperature : ℚ := 4 / 10
  include_venice_system_prompt : Bool := true

/-- `AgentRuntimeService._agent_mode`: anything outside `{active, shadow}`
falls back to `active`. -/
def RuntimeConfig.agent_mode (cfg : RuntimeConfig) : String :=
  if cfg.mode = "active" ∨ cfg.mode = "shadow" then cfg.mode else "active"

/-- `AgentRuntimeService._agent_probability` (clamped to `[0, 1]`). -/
def RuntimeConfig.agent_probability (cfg : RuntimeConfig) : ℚ :=
  max 0 (min 1 cfg.probability)

/-- `AgentRuntimeService._agent_cooldown_seconds`. -/
def RuntimeConfig.agent_cooldown_seconds (cfg : RuntimeConfig) : Int :=
  max 0 cfg.cooldown_seconds

/-- `AgentRuntimeService._agent_min_messages_since_bot`. -/
def RuntimeConfig.agent_min_messages_since_bot (cfg : RuntimeConfig) : Int :=
  max 0 cfg.min_messages_since_bot

/-- `AgentRuntimeService._agent_context_limit`. -/
def RuntimeConfig.agent_context_limit (cfg : RuntimeConfig) : Int :=
  max 1 cfg.context_limit

/-- `AgentRuntimeService._agent_max_chars`. -/
def RuntimeConfig.agent_max_chars (cfg : RuntimeConfig) : Int :=
  max 0 cfg.max_chars

/-- `AgentRuntimeService._sanitize_decision`; `state_cmid` is
`int(state.get("cmid") or 0)`. -/
def sanitize_decision (cfg : RuntimeConfig) (decision : AgentDecision)
    (state_cmid : Int) : AgentDecision :=
  let max_chars := cfg.agent_max_chars
  let decision :=
    if max_chars > 0 ∧ (decision.text.length : Int) > max_chars
    then { decision with text := pyStrip (pyTakeChars decision.text max_chars.toNat) }
    else decision
  if decision.action = "send_message" then
    if decision.text = "" then { action := "none", reason := "empty_send_message" }
    else if cfg.allow_thread_reply then decision
    else { decision with reply_to_cmid := 0 }
  else if decision.action = "react" then
    if !cfg.allow_reactions then { action := "none", reason := "reactions_disabled" }
    else if 1 ≤ decision.reaction_id ∧ decision.reaction_id ≤ 16 then
      let decision :=
        if decision.target_cmid ≤ 0 then { decision with target_cmid := state_cmid }
        else decision
      if decision.target_cmid ≤ 0 then { action := "none", reason := "missing_target_cmid" }
      else decision
    else { action := "none", reason := "reaction_id_out_of_range" }
  else
    { action := "none", reason := if decision.reason = "" then "no_action" else decision.reason }

/-- Totality of sanitization for an arbitrary decision record. -/
theorem sanitize_decision_total (cfg : RuntimeConfig) (d0 : AgentDecision)
    (state_cmid : Int) :
    ((sanitize_decision cfg d0 state_cmid).action = "none"
      ∨ (sanitize_decision cfg d0 state_cmid).action = "send_message"
      ∨ (sanitize_decision cfg d0 state_cmid).action = "react")
    ∧ ((sanitize_decision cfg d0 state_cmid).action = "send_message" →
        (sanitize_decision cfg d0 state_cmid).text ≠ "")
    ∧ ((sanitize_decision cfg d0 state_cmid).action = "react" →
        1 ≤ (sanitize_decision cfg d0 state_cmid).reaction_id
        ∧ (sanitize_decision cfg d0 state_cmid).reaction_id ≤ 16
        ∧ 0 < (sanitize_decision cfg d0 state_cmid).target_cmid) := by
  unfold sanitize_decision
  dsimp only
  repeat' split
  all_goals simp_all

/-- C1: sanitizing any untrusted payload converted by `AgentDecision.from_value`
yields an action in `{none, send_message, react}`; a surviving `send_message`
carries non-empty text, and a surviving `react` carries a reaction id in
`1..16` and a strictly positive target cmid. -/
theorem sanitize_from_value_total (cfg : RuntimeConfig) (v : PyValue)
    (state_cmid : Int) :
    let d := sanitize_decision cfg (AgentDecision.from_value v) state_cmid
    (d.action = "none" ∨ d.action = "send_message" ∨ d.action = "react")
    ∧ (d.action = "send_message" → d.text ≠ "")
    ∧ (d.action = "react" →
        1 ≤ d.reaction_id ∧ d.reaction_id ≤ 16 ∧ 0 < d.target_cmid) :=
  sanitize_decision_total cfg (AgentDecision.from_value v) state_cmid

/-- C1 witness: a concrete malformed payload (action `react`, reaction id 99)
is downgraded to `none`. -/
theorem sanitize_from_value_total_witness :
    let d := sanitize_decision {}
      (AgentDecision.from_value
        (PyValue.dict [("action", PyValue.str "react"), ("reaction_id", PyValue.int 99)])) 5
    (d.action = "none" ∨ d.action = "send_message" ∨ d.action = "react")
    ∧ (d.action = "send_message" → d.text ≠ "")
    ∧ (d.action = "react" →
        1 ≤ d.reaction_id ∧ d.reaction_id ≤ 16 ∧ 0 < d.target_cmid) :=
  sanitize_from_value_total {}
    (PyValue.dict [("action", PyValue.str "react"), ("reaction_id", PyValue.int 99)]) 5

/-! ## Provider-response parsing (`_parse_json_object`, `JSON_OBJECT_RE`) -/

/-- The character `\x7b`. -/
def lbrace : Char := Char.ofNat 123

/-- The character `\x7d`. -/
def rbrace : Char := Char.ofNat 125

/-- The backtick character. -/
def backtickChar : Char := Char.ofNat 96

/-- Python `text.strip(backtick)`: remove leading and trailing backticks. -/
def stripBackticks (s : String) : String :=
  String.mk
    (((s.toList.dropWhile (fun c => c == backtickChar)).reverse.dropWhile
      (fun c => c == backtickChar)).reverse)

/-- Python `text.split(newline, 1)[1]`, used when a newline is present. -/
def afterFirstNewline (s : String) : String :=
  String.mk ((s.toList.dropWhile (fun c => c != '\n')).drop 1)

/-- The code-fence preprocessing of `_parse_json_object` (lines 112–121):
strip whitespace, drop a leading fenced line, strip a trailing fence. -/
def stripCodeFences (s : String) : String :=
  let text := pyStrip s
  let text :=
    if strStartsWith text "```" then
      let t := stripBackticks text
      if strContainsChar t '\n' then afterFirstNewline t else t
    else text
  let text := pyStrip text
  if strEndsWith text "```" then pyStrip (pyDropRight text 3) else text

/-- The suffix cut: everything up to and including the last `\x7d` of `l`. -/
def takeToLastRBrace (l : List Char) : List Char :=
  (l.reverse.dropWhile (fun c => c != rbrace)).reverse

/-- `JSON_OBJECT_RE.search(text)` for the pattern `\x7b.*\x7d` with `DOTALL`:
the leftmost start position bearing a match, with the greedy star running to
the last `\x7d` of the text. -/
def json_object_re_search : List Char → Option (List Char)
  | [] => Option.none
  | c :: rest =>
    if c = lbrace ∧ rbrace ∈ rest then some (c :: takeToLastRBrace rest)
    else json_object_re_search rest

/-- The spec's wording of the retry extraction: the substring from the first
opening brace through the last closing brace, when that span is non-empty. -/
def firstLastBraceSlice (l : List Char) : Option (List Char) :=
  let fromFirst := l.dropWhile (fun c => c != lbrace)
  let upToLast := (fromFirst.reverse.dropWhile (fun c => c != rbrace)).reverse
  if upToLast.isEmpty then Option.none else some upToLast

theorem slice_eq_none_of_no_rbrace (l : List Char) (h : rbrace ∉ l) :
    firstLastBraceSlice l = Option.none := by
  unfold firstLastBraceSlice
  have hnil : (l.dropWhile (fun c => c != lbrace)).reverse.dropWhile
      (fun c => c != rbrace) = [] := by
    rw [List.dropWhile_eq_nil_iff]
    intro x hx
    have hxl : x ∈ l :=
      (List.dropWhile_sublist (l := l) (p := fun c => c != lbrace)).mem
        (List.mem_reverse.mp hx)
    have : x ≠ rbrace := fun hxe => h (hxe ▸ hxl)
    simpa using this
  simp [hnil]

/-- The modelled regex search coincides with the spec's first-to-last-brace
slice. -/
theorem json_object_re_search_eq_slice (l : List Char) :
    json_object_re_search l = firstLastBraceSlice l := by
  induction l with
  | nil => rfl
  | cons c rest ih =>
    by_cases hc : c = lbrace
    · subst hc
      by_cases hr : rbrace ∈ rest
      · unfold json_object_re_search firstLastBraceSlice
        simp only [hr, and_true, if_pos, reduceIte, List.dropWhile_cons,
          bne_self_eq_false, Bool.false_eq_true, if_false, List.reverse_cons,
          List.dropWhile_append]
        have hne : (rest.reverse.dropWhile (fun c => c != rbrace)).isEmpty = false := by
          rw [List.isEmpty_eq_false_iff_exists_mem]
          by_contra hcon
          push_neg at hcon
          have hnil : rest.reverse.dropWhile (fun c => c != rbrace) = [] :=
            List.eq_nil_iff_forall_not_mem.mpr hcon
          rw [List.dropWhile_eq_nil_iff] at hnil
          have := hnil rbrace (List.mem_reverse.mpr hr)
          simp at this
        rw [hne]
        simp [takeToLastRBrace]
      · have hsearch : json_object_re_search (lbrace :: rest)
            = json_object_re_search rest := by
          rw [json_object_re_search.eq_def]
          simp [hr]
        have hslice1 : firstLastBraceSlice (lbrace :: rest) = Option.none := by
          apply slice_eq_none_of_no_rbrace
          intro hmem
          rcases List.mem_cons.mp hmem with h1 | h2
          · exact absurd h1.symm (by decide)
          · exact hr h2
        have hslice2 : firstLastBraceSlice rest = Option.none :=
          slice_eq_none_of_no_rbrace rest hr
        rw [hsearch, ih, hslice1, hslice2]
    · have hsearch : json_object_re_search (c :: rest)
          = json_object_re_search rest := by
        rw [json_object_re_search.eq_def]
        simp [hc]
      have hslice : firstLastBraceSlice (c :: rest) = firstLastBraceSlice rest := by
        unfold firstLastBraceSlice
        simp [hc]
      rw [hsearch, ih, hslice]

/-- The dict-or-nothing wrapper around an external JSON decoder: the decoded
value when it is an object, `Option.none` otherwise (including decode
failure).  Both parse attempts of `_parse_json_object` use this shape. -/
def loadsDict (loads : String → Option PyValue) (s : String) : Option PyValue :=
  match loads s with
  | some (PyValue.dict entries) => some (PyValue.dict entries)
  | _ => Option.none

/-- `_parse_json_object`, parameterised by the external `json.loads`
(`loads s = Option.none` models a raised `JSONDecodeError`). -/
def parse_json_object (loads : String → Option PyValue) (raw_text : String) :
    Option PyValue :=
  if pyStrip raw_text = "" then Option.none
  else
    let text := stripCodeFences raw_text
    match loads text with
    | some (PyValue.dict entries) => some (PyValue.dict entries)
    | _ =>
      match json_object_re_search text.toList with
      | Option.none => Option.none
      | some snippetChars =>
        let snippet := pyStrip (String.mk snippetChars)
        match loads snippet with
        | some (PyValue.dict entries) => some (PyValue.dict entries)
        | _ => Option.none

/-- The spec's wording of the parsing strategy: strict parse of the
fence-stripped text; on failure, slice from the first opening brace through
the last closing brace and retry; an object on success, otherwise nothing. -/
def parse_json_object_spec (loads : String → Option PyValue) (raw_text : String) :
    Option PyValue :=
  let text := stripCodeFences raw_text
  match loadsDict loads text with
  | some d => some d
  | Option.none =>
    match firstLastBraceSlice text.toList with
    | some snippetChars => loadsDict loads (pyStrip (String.mk snippetChars))
    | Option.none => Option.none

theorem stripCodeFences_of_trim_empty (s : String) (h : pyStrip s = "") :
    stripCodeFences s = "" := by
  unfold stripCodeFences
  rw [h]
  rfl

/-- C8: the implemented parser agrees with the spec's description — strict
parse of the fence-stripped text first, then one retry on the first-to-last
brace substring, `Option.none` exactly when both attempts fail to produce an
object.  The decoder is abstract; the hypothesis records that decoding the
empty string cannot yield an object (Python `json.loads` raises on it). -/
theorem parse_json_object_correct (loads : String → Option PyValue)
    (raw_text : String) (h0 : loadsDict loads "" = Option.none) :
    parse_json_object loads raw_text = parse_json_object_spec loads raw_text := by
  unfold parse_json_object parse_json_object_spec
  dsimp only
  by_cases he : pyStrip raw_text = ""
  · rw [stripCodeFences_of_trim_empty raw_text he]
    simp only [he, reduceIte, h0]
    rfl
  · simp only [he, reduceIte]
    rw [json_object_re_search_eq_slice]
    generalize stripCodeFences raw_text = t
    cases hl : loads t with
    | some v =>
      cases v <;> simp only [loadsDict, hl] <;>
        (cases hs : firstLastBraceSlice t.toList with
         | none => rfl
         | some snip =>
            cases hl2 : loads (pyStrip (String.mk snip)) with
            | none => rfl
            | some w => cases w <;> rfl)
    | none =>
      simp only [loadsDict, hl]
      cases hs : firstLastBraceSlice t.toList with
      | none => rfl
      | some snip =>
        cases hl2 : loads (pyStrip (String.mk snip)) with
        | none => rfl
        | some w => cases w <;> rfl

/-! ## Agent pipeline state and the Decide stage -/

/-- `models.AgentState` with its typed fields (`state.get(k)` on an absent or
falsy field is modelled by the zero/empty defaults `build_initial_state`
installs). -/
structure AgentState where
  peer_id : Int := 0
  actor_id : Int := 0
  cmid : Int := 0
  text : String := ""
  context : PyValue := PyValue.dict []
  decision : PyValue := PyValue.dict []
  action_result : PyValue := PyValue.dict []
  error : String := ""

/-- A `{"role": r, "content": c}` chat message. -/
def roleMsg (role content : String) : PyValue :=
  PyValue.dict [("role", .str role), ("content", .str content)]

/-- The `AGENT_RESPONSE_FORMAT` constant (lines 21–40). -/
def AGENT_RESPONSE_FORMAT : PyValue :=
  .dict [("type", .str "json_schema"),
    ("json_schema", .dict [
      ("name", .str "autonomous_vk_action"),
      ("schema", .dict [
        ("type", .str "object"),
        ("properties", .dict [
          ("action", .dict [("type", .str "string"),
            ("enum", .list [.str "none", .str "send_message", .str "react"])]),
          ("text", .dict [("type", .str "string")]),
          ("reply_to_cmid", .dict [("type", .str "integer")]),
          ("target_cmid", .dict [("type", .str "integer")]),
          ("reaction_id", .dict [("type", .str "integer")]),
          ("reason", .dict [("type", .str "string")])]),
        ("required", .list [.str "action", .str "text", .str "reply_to_cmid",
          .str "target_cmid", .str "reaction_id", .str "reason"]),
        ("additionalProperties", .bool false)]),
      ("strict", .bool true)])]

/-- A minimal model of `json.dumps` string escaping (quote, backslash and the
common control characters; `ensure_ascii=False` passes the rest through). -/
def jsonEscapeChar (c : Char) : List Char :=
  if c = '"' then ['\\', '"']
  else if c = '\\' then ['\\', '\\']
  else if c = '\n' then ['\\', 'n']
  else if c = '\t' then ['\\', 't']
  else if c = '\r' then ['\\', 'r']
  else [c]

/-- `json.dumps` of a string. -/
def jsonDumpsString (s : String) : String :=
  "\"" ++ String.mk (s.toList.map jsonEscapeChar).flatten ++ "\""

/-- `json.dumps` of the `user_payload` record of `decide` (separators
`(",", ":")`, `ensure_ascii=False`). -/
def dumpsUserPayload (peer_id actor_id cmid : Int) (text : String) : String :=
  "\x7b\"peer_id\":" ++ toString peer_id ++ ",\"actor_id\":" ++ toString actor_id ++
    ",\"cmid\":" ++ toString cmid ++ ",\"text\":" ++ jsonDumpsString text ++ "\x7d"

/-- The chat-message list `decide` assembles (lines 447–470).  A truthy
non-dict `context` value cannot occur (the Observe stage always produces a
dict) and is modelled like an empty one. -/
def build_decide_messages (cfg : RuntimeConfig) (st : AgentState) : List PyValue :=
  let context := match st.context with | .dict entries => entries | _ => []
  let summary_prompt := pyStrip (pyStrOr (dictGet context "summary_prompt") "")
  let user_memory_prompt := pyStrip (pyStrOr (dictGet context "user_memory_prompt") "")
  let messages := [roleMsg "system" cfg.system_prompt]
  let messages := messages ++
    (if summary_prompt ≠ "" then [roleMsg "system" summary_prompt] else [])
  let messages := messages ++
    (if user_memory_prompt ≠ "" then [roleMsg "system" user_memory_prompt] else [])
  let messages := messages ++
    (match dictGet context "peer_turns" with
     | .list peer_turns =>
        peer_turns.drop (peer_turns.length - cfg.agent_context_limit.toNat)
     | _ => [])
  messages ++ [roleMsg "user"
    ("Current message JSON:\n" ++ dumpsUserPayload st.peer_id st.actor_id st.cmid st.text)]

/-- The request payload of `_build_decide_payload`; the retry path pops
`response_format`. -/
structure DecidePayload where
  model : String
  messages : List PyValue
  max_tokens : Int
  temperature : ℚ
  response_format : Option PyValue
  include_venice_system_prompt : Bool
  strip_thinking_response : Bool := true
  disable_thinking : Bool := true

/-- `AgentRuntimeService._build_decide_payload` (with `_agent_max_tokens`'s
`max(64, ·)` clamp inlined). -/
def build_decide_payload (cfg : RuntimeConfig) (messages : List PyValue) :
    DecidePayload :=
  { model := cfg.venice_model
    messages := messages
    max_tokens := max 64 cfg.max_tokens
    temperature := cfg.venice_temperature
    response_format := some AGENT_RESPONSE_FORMAT
    include_venice_system_prompt := cfg.include_venice_system_prompt }

/-- The partial state update returned by the Decide stage. -/
structure DecideUpdate where
  decision : PyValue
  error : Option String := Option.none

/-- The tail of `decide` after a raw provider response was obtained
(lines 487–490): parse, convert totally, sanitize. -/
def decide_parse (cfg : RuntimeConfig) (loads : String → Option PyValue)
    (st : AgentState) (raw : String) : DecideUpdate :=
  let parsed := parse_json_object loads raw
  let decision := AgentDecision.from_value (parsed.getD PyValue.none)
  let decision := sanitize_decision cfg decision st.cmid
  { decision := decision.to_dict }

/-- `AgentRuntimeService.decide`.  `provider` models `_venice_request_text`
(one provider call returning stripped non-empty text, or a raised exception
as `.error`); `loads` models `json.loads`. -/
def decide (cfg : RuntimeConfig) (provider : DecidePayload → Except String String)
    (loads : String → Option PyValue) (st : AgentState) : DecideUpdate :=
  let messages := build_decide_messages cfg st
  let payload := build_decide_payload cfg messages
  match provider payload with
  | .ok raw => decide_parse cfg loads st raw
  | .error _ =>
    match provider { payload with response_format := Option.none } with
    | .ok raw => decide_parse cfg loads st raw
    | .error e =>
      { decision := AgentDecision.to_dict { action := "none", reason := "decide_error" }
        error := some e }

/-! ## A concrete `json.loads` model

Recursive-descent decoder for the JSON fragment the agent exchanges: null,
booleans, integers, strings with the common escapes, arrays and objects.
Floats, `\u` escapes, `NaN`/`Infinity` and the leading-zero restriction are
not modelled; the decoder is only instantiated on inputs inside the modelled
fragment, where it agrees with Python `json.loads`. -/

/-- Skip JSON insignificant whitespace. -/
def jsonSkipWs (l : List Char) : List Char :=
  l.dropWhile (fun c => c = ' ' || c = '\t' || c = '\n' || c = '\r')

/-- Decode a JSON string body (after the opening quote). -/
def jsonStringAux : Nat → List Char → Option (String × List Char)
  | 0, _ => Option.none
  | _ + 1, [] => Option.none
  | fuel + 1, c :: rest =>
    if c = '"' then some ("", rest)
    else if c = '\\' then
      match rest with
      | [] => Option.none
      | e :: rest2 =>
        let esc : Option Char :=
          if e = '"' then some '"'
          else if e = '\\' then some '\\'
          else if e = '/' then some '/'
          else if e = 'n' then some '\n'
          else if e = 't' then some '\t'
          else if e = 'r' then some '\r'
          else Option.none
        esc.bind fun ch =>
          (jsonStringAux fuel rest2).map fun p => (String.mk (ch :: p.1.toList), p.2)
    else (jsonStringAux fuel rest).map fun p => (String.mk (c :: p.1.toList), p.2)

/-- Decode a JSON integer (a non-integer numeric tail makes decoding fail,
matching the unmodelled-float restriction). -/
def jsonNumber (l : List Char) : Option (Int × List Char) :=
  let neg := l.head? = some '-'
  let l1 := if neg then l.drop 1 else l
  let digits := l1.takeWhile Char.isDigit
  let rest := l1.drop digits.length
  if digits.isEmpty then Option.none
  else if rest.head? = some '.' ∨ rest.head? = some 'e' ∨ rest.head? = some 'E' then
    Option.none
  else
    let n : Int := digits.foldl (fun acc c => 10 * acc + (c.toNat - 48 : Nat)) (0 : Int)
    some (if neg then -n else n, rest)

mutual

/-- Decode one JSON value. -/
def jsonValueAux : Nat → List Char → Option (PyValue × List Char)
  | 0, _ => Option.none
  | fuel + 1, l =>
    match jsonSkipWs l with
    | [] => Option.none
    | c :: rest =>
      if c = '"' then (jsonStringAux fuel rest).map fun p => (PyValue.str p.1, p.2)
      else if c = 't' then
        if rest.take 3 = ['r', 'u', 'e'] then some (PyValue.bool true, rest.drop 3)
        else Option.none
      else if c = 'f' then
        if rest.take 4 = ['a', 'l', 's', 'e'] then some (PyValue.bool false, rest.drop 4)
        else Option.none
      else if c = 'n' then
        if rest.take 3 = ['u', 'l', 'l'] then some (PyValue.none, rest.drop 3)
        else Option.none
      else if c = lbrace then
        match jsonSkipWs rest with
        | c2 :: rest2 =>
          if c2 = rbrace then some (PyValue.dict [], rest2)
          else jsonMembersAux fuel (jsonSkipWs rest) []
        | [] => Option.none
      else if c = '[' then
        match jsonSkipWs rest with
        | ']' :: rest2 => some (PyValue.list [], rest2)
        | _ => jsonElementsAux fuel (jsonSkipWs rest) []
      else if c = '-' ∨ c.isDigit then
        (jsonNumber (c :: rest)).map fun p => (PyValue.int p.1, p.2)
      else Option.none

/-- Decode the members of a JSON object (after the opening brace, when the
object is non-empty). -/
def jsonMembersAux : Nat → List Char → List (String × PyValue) →
    Option (PyValue × List Char)
  | 0, _, _ => Option.none
  | fuel + 1, l, acc =>
    match jsonSkipWs l with
    | c :: rest =>
      if c = '"' then
        match jsonStringAux fuel rest with
        | some (key, rest2) =>
          match jsonSkipWs rest2 with
          | ':' :: rest3 =>
            match jsonValueAux fuel rest3 with
            | some (v, rest4) =>
              match jsonSkipWs rest4 with
              | ',' :: rest5 => jsonMembersAux fuel rest5 (acc ++ [(key, v)])
              | c2 :: rest5 =>
                if c2 = rbrace then some (PyValue.dict (acc ++ [(key, v)]), rest5)
                else Option.none
              | [] => Option.none
            | Option.none => Option.none
          | _ => Option.none
        | Option.none => Option.none
      else Option.none
    | [] => Option.none

/-- Decode the elements of a JSON array (after the opening bracket, when the
array is non-empty). -/
def jsonElementsAux : Nat → List Char → List PyValue → Option (PyValue × List Char)
  | 0, _, _ => Option.none
  | fuel + 1, l, acc =>
    match jsonValueAux fuel l with
    | some (v, rest) =>
      match jsonSkipWs rest with
      | ',' :: rest2 => jsonElementsAux fuel rest2 (acc ++ [v])
      | c :: rest2 => if c = ']' then some (PyValue.list (acc ++ [v]), rest2) else Option.none
      | [] => Option.none
    | Option.none => Option.none

end

/-- The `json.loads` model: decode one value and insist on no trailing
content. -/
def jsonLoads (s : String) : Option PyValue :=
  let l := s.toList
  match jsonValueAux (l.length + 16) l with
  | some (v, rest) => if (jsonSkipWs rest).isEmpty then some v else Option.none
  | Option.none => Option.none

/-! ## Gate state, VK tools and the Act stage -/

/-- Pointwise update of a per-peer map. -/
def updMap (m : Int → Int) (k v : Int) : Int → Int :=
  fun x => if x = k then v else m x

/-- The per-peer gate counters (`last_bot_message_ts_by_peer`,
`messages_since_bot_by_peer`), total with default `0` as `dict.get(p, 0)`
reads them. -/
structure GateState where
  last_bot_message_ts_by_peer : Int → Int
  messages_since_bot_by_peer : Int → Int

/-- The all-zero gate (fresh state maps). -/
def GateState.init : GateState :=
  { last_bot_message_ts_by_peer := fun _ => 0
    messages_since_bot_by_peer := fun _ => 0 }

/-- `legacy_bot.mark_bot_activity` (legacy_bot.py lines 3394–3399): stamps the
legacy module's own global dicts (`LAST_BOT_MESSAGE_TS_BY_PEER`,
`MESSAGES_SINCE_BOT_BY_PEER`) — a store distinct from the `ctx.state` gate
maps — and is a no-op for a falsy peer id. -/
def legacy_mark_bot_activity (lg : GateState) (peer_id now_ts : Int) : GateState :=
  if peer_id = 0 then lg
  else
    { last_bot_message_ts_by_peer := updMap lg.last_bot_message_ts_by_peer peer_id now_ts
      messages_since_bot_by_peer := updMap lg.messages_since_bot_by_peer peer_id 0 }

/-- Whether the injected legacy module exposes a callable `mark_bot_activity`
and whether calling it raises for a given peer.  The repository's
`legacy_bot` module installs one (line 3394) that writes its own dicts and
does not raise; test doubles install a no-op; a module without the attribute
gives `installed := false`. -/
structure LegacyMarker where
  installed : Bool := false
  raises : Int → Bool := fun _ => false

/-- `AgentRuntimeService._mark_bot_activity` (lines 268–280): when a legacy
marker is installed and does not raise, the reset is delegated to it — it
lands in the legacy module's own store `lg` and the `ctx.state` gate maps `g`
are left untouched; only without a marker, or when the marker raises, does
the fallback stamp the gate maps (a raising marker's partial writes to `lg`
are not modelled; the repository's marker cannot raise).  Returns
`(gate, legacy)` after the call. -/
def mark_bot_activity (lm : LegacyMarker) (g lg : GateState)
    (peer_id now_ts : Int) : GateState × GateState :=
  if lm.installed = true then
    if lm.raises peer_id = true then
      ({ last_bot_message_ts_by_peer := updMap g.last_bot_message_ts_by_peer peer_id now_ts
         messages_since_bot_by_peer := updMap g.messages_since_bot_by_peer peer_id 0 }, lg)
    else (g, legacy_mark_bot_activity lg peer_id now_ts)
  else
    ({ last_bot_message_ts_by_peer := updMap g.last_bot_message_ts_by_peer peer_id now_ts
       messages_since_bot_by_peer := updMap g.messages_since_bot_by_peer peer_id 0 }, lg)

/-- The external VK API surface behind `VkTools` (`bot.api.request`); an
`.error` result models a raised exception. -/
structure VkApi where
  request : String → PyValue → Except String PyValue

/-- The `int(response or d)`-with-fallback coercion of `VkTools`. -/
def vkCoerceResponse (v : PyValue) (d : Int) : Int :=
  if pyTruthy v then (pyInt? v).getD d else d

/-- The request payload `VkTools.send_message` builds (the `reply_to` key is
present only for a positive reply target). -/
def send_message_payload (peer_id : Int) (text : String) (reply_to_cmid : Int) :
    PyValue :=
  PyValue.dict
    ([("peer_id", .int peer_id), ("message", .str text), ("random_id", .int 0)]
      ++ (if reply_to_cmid > 0 then [("reply_to", .int reply_to_cmid)] else []))

/-- The request payload `VkTools.send_reaction` builds. -/
def send_reaction_payload (peer_id cmid reaction_id : Int) : PyValue :=
  PyValue.dict
    [("peer_id", .int peer_id), ("cmid", .int cmid), ("reaction_id", .int reaction_id)]

/-- `VkTools.send_message`. -/
def vk_send_message (api : VkApi) (peer_id : Int) (text : String)
    (reply_to_cmid : Int) : Except String Int :=
  match api.request "messages.send" (send_message_payload peer_id text reply_to_cmid) with
  | .error e => .error e
  | .ok resp => .ok (vkCoerceResponse resp 0)

/-- `VkTools.send_reaction`. -/
def vk_send_reaction (api : VkApi) (peer_id cmid reaction_id : Int) :
    Except String Int :=
  match api.request "messages.sendReaction"
      (send_reaction_payload peer_id cmid reaction_id) with
  | .error e => .error e
  | .ok resp => .ok (vkCoerceResponse resp 1)

/-- The outcome of the Act stage: the `action_result` partial update, the
`ctx.state` gate maps and the legacy module's own store after any
`_mark_bot_activity`, and the external calls made. -/
structure ActOutcome where
  action_result : PyValue
  gate : GateState
  legacy : GateState
  calls : List (String × PyValue)

/-- `AgentRuntimeService.act`; `lm` describes the injected legacy module's
`mark_bot_activity` attribute and `lg` is that module's own activity store. -/
def act (cfg : RuntimeConfig) (lm : LegacyMarker) (api : VkApi)
    (g lg : GateState) (st : AgentState) (now_ts : Int) : ActOutcome :=
  let decision := AgentDecision.from_value st.decision
  if decision.action = "none" then
    { action_result := AgentActionResult.to_dict
        { executed := false, vk_method := "none", error := decision.reason }
      gate := g, legacy := lg, calls := [] }
  else if cfg.agent_mode = "shadow" then
    { action_result := AgentActionResult.to_dict
        { executed := false, vk_method := "shadow" }
      gate := g, legacy := lg, calls := [] }
  else
    let peer_id := st.peer_id
    if decision.action = "send_message" then
      let reply_to := if cfg.allow_thread_reply then decision.reply_to_cmid else 0
      let calls := [("messages.send", send_message_payload peer_id decision.text reply_to)]
      match vk_send_message api peer_id decision.text reply_to with
      | .ok response_id =>
        let marked := mark_bot_activity lm g lg peer_id now_ts
        { action_result := AgentActionResult.to_dict
            { executed := true, vk_method := "messages.send"
              vk_response_id := response_id }
          gate := marked.1, legacy := marked.2, calls := calls }
      | .error e =>
        { action_result := AgentActionResult.to_dict
            { executed := false, vk_method := decision.action, error := e }
          gate := g, legacy := lg, calls := calls }
    else if decision.action = "react" then
      let target_cmid :=
        if decision.target_cmid ≠ 0 then decision.target_cmid
        else if st.cmid ≠ 0 then st.cmid else 0
      if target_cmid ≤ 0 then
        { action_result := AgentActionResult.to_dict
            { executed := false, vk_method := "messages.sendReaction"
              error := "missing_target_cmid" }
          gate := g, legacy := lg, calls := [] }
      else
        let calls := [("messages.sendReaction",
          send_reaction_payload peer_id target_cmid decision.reaction_id)]
        match vk_send_reaction api peer_id target_cmid decision.reaction_id with
        | .ok response_id =>
          let marked := mark_bot_activity lm g lg peer_id now_ts
          { action_result := AgentActionResult.to_dict
              { executed := true, vk_method := "messages.sendReaction"
                vk_response_id := if response_id ≠ 0 then response_id else 1 }
            gate := marked.1, legacy := marked.2, calls := calls }
        | .error e =>
          { action_result := AgentActionResult.to_dict
              { executed := false, vk_method := decision.action, error := e }
            gate := g, legacy := lg, calls := calls }
    else
      { action_result := AgentActionResult.to_dict
          { executed := false, vk_method := "none" }
        gate := g, legacy := lg, calls := [] }

/-! ## Decide-stage failure handling (C2, C4) -/

/-- C2: when the provider call raises on both the strict attempt and the
relaxed retry, `decide` returns (never raises) a decision with action `none`
and reason `decide_error`, together with the recorded error string of the
second failure. -/
theorem decide_provider_failure (cfg : RuntimeConfig)
    (provider : DecidePayload → Except String String)
    (loads : String → Option PyValue) (st : AgentState) (e1 e2 : String)
    (h1 : provider (build_decide_payload cfg (build_decide_messages cfg st))
      = Except.error e1)
    (h2 : provider { build_decide_payload cfg (build_decide_messages cfg st) with
        response_format := Option.none } = Except.error e2) :
    (AgentDecision.from_value (decide cfg provider loads st).decision).action = "none"
    ∧ (AgentDecision.from_value (decide cfg provider loads st).decision).reason
        = "decide_error"
    ∧ (decide cfg provider loads st).error = some e2 := by
  have heq : decide cfg provider loads st =
      { decision := AgentDecision.to_dict { action := "none", reason := "decide_error" }
        error := some e2 } := by
    unfold decide
    dsimp only
    rw [h1, h2]
  rw [heq]
  dsimp only
  exact ⟨by decide, by decide, rfl⟩

/-- C2 witness: a provider that always raises. -/
theorem decide_provider_failure_witness :
    (AgentDecision.from_value
      (decide {} (fun _ => Except.error "boom") jsonLoads {}).decision).action = "none"
    ∧ (AgentDecision.from_value
        (decide {} (fun _ => Except.error "boom") jsonLoads {}).decision).reason
        = "decide_error"
    ∧ (decide {} (fun _ => Except.error "boom") jsonLoads {}).error = some "boom" :=
  decide_provider_failure {} (fun _ => Except.error "boom") jsonLoads {} "boom" "boom"
    rfl rfl

/-- C4 counterexample: the provider succeeds with the non-structured text
`"hello"`; `decide` yields action `none` but with reason `invalid_payload`,
not the claimed `decide_error`. -/
theorem decide_unparsable_counterexample :
    (AgentDecision.from_value
      (decide {} (fun _ => Except.ok "hello") jsonLoads {}).decision).action = "none"
    ∧ (AgentDecision.from_value
        (decide {} (fun _ => Except.ok "hello") jsonLoads {}).decision).reason
        = "invalid_payload"
    ∧ ("invalid_payload" : String) ≠ "decide_error" := by
  decide

/-- C4 amended: when the provider call succeeds but no JSON object can be
parsed from the returned text, `decide` yields action `none` with reason
`invalid_payload` (the total-conversion fallback reason) and records no error
string; `decide_error` is reserved for raised provider calls. -/
theorem decide_unparsable (cfg : RuntimeConfig)
    (provider : DecidePayload → Except String String)
    (loads : String → Option PyValue) (st : AgentState) (raw : String)
    (h1 : provider (build_decide_payload cfg (build_decide_messages cfg st))
      = Except.ok raw)
    (hp : parse_json_object loads raw = Option.none) :
    (AgentDecision.from_value (decide cfg provider loads st).decision).action = "none"
    ∧ (AgentDecision.from_value (decide cfg provider loads st).decision).reason
        = "invalid_payload"
    ∧ (decide cfg provider loads st).error = Option.none := by
  have heq : decide cfg provider loads st = decide_parse cfg loads st raw := by
    unfold decide
    dsimp only
    rw [h1]
  have hfv : AgentDecision.from_value
      ((parse_json_object loads raw).getD PyValue.none)
      = { action := "none", reason := "invalid_payload" } := by
    rw [hp]
    rfl
  have hsan : sanitize_decision cfg { action := "none", reason := "invalid_payload" }
      st.cmid = { action := "none", reason := "invalid_payload" } := by
    unfold sanitize_decision
    dsimp only
    have hclip : ¬(cfg.agent_max_chars > 0
        ∧ ((("" : String).length : Int) > cfg.agent_max_chars)) := by
      rintro ⟨hpos, hgt⟩
      have htext : (("" : String).length : Int) = 0 := by decide
      rw [htext] at hgt
      omega
    rw [if_neg hclip]
    simp
  have hdp : decide_parse cfg loads st raw =
      { decision := AgentDecision.to_dict { action := "none", reason := "invalid_payload" } } := by
    unfold decide_parse
    dsimp only
    rw [hfv, hsan]
  rw [heq, hdp]
  exact ⟨by decide, by decide, rfl⟩

/-- C4 amended witness: the concrete unparsable text `"hello"`. -/
theorem decide_unparsable_witness :
    (AgentDecision.from_value
      (decide {} (fun _ => Except.ok "hello") jsonLoads {}).decision).action = "none"
    ∧ (AgentDecision.from_value
        (decide {} (fun _ => Except.ok "hello") jsonLoads {}).decision).reason
        = "invalid_payload"
    ∧ (decide {} (fun _ => Except.ok "hello") jsonLoads {}).error = Option.none :=
  decide_unparsable {} (fun _ => Except.ok "hello") jsonLoads {} "hello" rfl rfl

/-! ## Act-stage behaviour (C6, C7, C10) -/

/-- Whether a modelled value is Python `None`. -/
def PyValue.isNone : PyValue → Bool
  | .none => true
  | _ => false

/-- Field lookup on a dict-shaped payload. -/
def payloadGet (p : PyValue) (key : String) : PyValue :=
  match p with
  | .dict entries => dictGet entries key
  | _ => PyValue.none

/-- C8 witness: the concrete decoder on fenced text with commentary around
the object. -/
theorem parse_json_object_correct_witness :
    parse_json_object jsonLoads "note \x7b\"action\": \"react\"\x7d done"
      = parse_json_object_spec jsonLoads "note \x7b\"action\": \"react\"\x7d done" :=
  parse_json_object_correct jsonLoads "note \x7b\"action\": \"react\"\x7d done" rfl

/-- C10: for a decision whose action is `none`, `act` returns
`executed = false`, method `none` and the decision's reason in the error
field, makes no calls and leaves the gate untouched — for every execution
mode, so the `shadow` marker never appears for a `none` decision. -/
theorem act_none_decision (cfg : RuntimeConfig) (lm : LegacyMarker)
    (api : VkApi) (g lg : GateState) (st : AgentState) (now_ts : Int)
    (h : (AgentDecision.from_value st.decision).action = "none") :
    act cfg lm api g lg st now_ts =
      { action_result := AgentActionResult.to_dict
          { executed := false, vk_method := "none"
            error := (AgentDecision.from_value st.decision).reason }
        gate := g, legacy := lg, calls := [] } := by
  unfold act
  dsimp only
  rw [if_pos h]

/-- C10 witness: a concrete `none` decision in shadow mode still reports
method `none`. -/
theorem act_none_decision_witness :
    act { mode := "shadow" } { installed := true }
      { request := fun _ _ => Except.error "unreachable" }
      GateState.init GateState.init
      { decision := PyValue.dict [("action", PyValue.str "none"),
          ("reason", PyValue.str "skip")] } 7
    = { action_result := AgentActionResult.to_dict
          { executed := false, vk_method := "none"
            error := (AgentDecision.from_value
              (PyValue.dict [("action", PyValue.str "none"),
                ("reason", PyValue.str "skip")])).reason }
        gate := GateState.init, legacy := GateState.init, calls := [] } :=
  act_none_decision { mode := "shadow" } { installed := true }
    { request := fun _ _ => Except.error "unreachable" } GateState.init GateState.init
    { decision := PyValue.dict [("action", PyValue.str "none"),
        ("reason", PyValue.str "skip")] } 7 rfl

/-- C6 counterexample: in shadow mode a decision with action `none` yields
method `none`, not the claimed `shadow` (the calls are still empty). -/
theorem act_shadow_counterexample :
    let r := act { mode := "shadow" } { installed := true }
      { request := fun _ _ => Except.error "unreachable" }
      GateState.init GateState.init
      { decision := PyValue.dict [("action", PyValue.str "none")] } 0
    (AgentActionResult.from_value r.action_result).vk_method = "none"
    ∧ (AgentActionResult.from_value r.action_result).vk_method ≠ "shadow"
    ∧ r.calls.length = 0 := by
  refine ⟨by decide, by decide, by decide⟩

/-- C6 amended: in shadow mode `act` makes zero external calls for every
decision, and every decision whose action is not `none` yields
`executed = false` with method `shadow`; a `none` decision keeps its
mode-independent `none` result. -/
theorem act_shadow_mode (cfg : RuntimeConfig) (lm : LegacyMarker)
    (api : VkApi) (g lg : GateState) (st : AgentState) (now_ts : Int)
    (hmode : cfg.agent_mode = "shadow") :
    (act cfg lm api g lg st now_ts).calls = []
    ∧ ((AgentDecision.from_value st.decision).action ≠ "none" →
        act cfg lm api g lg st now_ts =
          { action_result := AgentActionResult.to_dict
              { executed := false, vk_method := "shadow" }
            gate := g, legacy := lg, calls := [] }) := by
  unfold act
  dsimp only
  by_cases h : (AgentDecision.from_value st.decision).action = "none"
  · rw [if_pos h]
    exact ⟨rfl, fun hc => absurd h hc⟩
  · rw [if_neg h, if_pos hmode]
    exact ⟨rfl, fun _ => rfl⟩

/-- C6 amended witness: a concrete `send_message` decision in shadow mode. -/
theorem act_shadow_mode_witness :
    (act { mode := "shadow" } { installed := true }
      { request := fun _ _ => Except.ok (PyValue.int 5) }
      GateState.init GateState.init
      { decision := PyValue.dict [("action", PyValue.str "send_message"),
          ("text", PyValue.str "hi")] } 4).calls = []
    ∧ act { mode := "shadow" } { installed := true }
        { request := fun _ _ => Except.ok (PyValue.int 5) }
        GateState.init GateState.init
        { decision := PyValue.dict [("action", PyValue.str "send_message"),
            ("text", PyValue.str "hi")] } 4
      = { action_result := AgentActionResult.to_dict
            { executed := false, vk_method := "shadow" }
          gate := GateState.init, legacy := GateState.init, calls := [] } :=
  ⟨(act_shadow_mode { mode := "shadow" } { installed := true }
      { request := fun _ _ => Except.ok (PyValue.int 5) }
      GateState.init GateState.init
      { decision := PyValue.dict [("action", PyValue.str "send_message"),
          ("text", PyValue.str "hi")] } 4 rfl).1,
   (act_shadow_mode { mode := "shadow" } { installed := true }
      { request := fun _ _ => Except.ok (PyValue.int 5) }
      GateState.init GateState.init
      { decision := PyValue.dict [("action", PyValue.str "send_message"),
          ("text", PyValue.str "hi")] } 4 rfl).2 (by decide)⟩

/-- C7 counterexample: with threaded replies disabled, a `react` decision
carrying `reply_to_cmid = 5` survives sanitization with the field intact —
sanitization only zeroes the field on the `send_message` branch. -/
theorem reply_to_survives_counterexample :
    let cfgT : RuntimeConfig := { allow_thread_reply := false }
    let payload := PyValue.dict [("action", PyValue.str "react"),
      ("reaction_id", PyValue.int 3), ("target_cmid", PyValue.int 9),
      ("reply_to_cmid", PyValue.int 5)]
    (sanitize_decision cfgT (AgentDecision.from_value payload) 5).reply_to_cmid = 5
    ∧ (sanitize_decision cfgT (AgentDecision.from_value payload) 5).action = "react" := by
  refine ⟨by decide, by decide⟩

/-- C7 amended: with threaded replies disabled, every sanitized
`send_message` decision has `reply_to_cmid = 0`, and no payload of any
external call made by `act` carries a `reply_to` key (a `react` decision may
retain a nonzero `reply_to_cmid` field, but it never reaches a tool call). -/
theorem reply_to_disabled (cfg : RuntimeConfig)
    (h : cfg.allow_thread_reply = false) :
    (∀ (d0 : AgentDecision) (state_cmid : Int),
      (sanitize_decision cfg d0 state_cmid).action = "send_message" →
      (sanitize_decision cfg d0 state_cmid).reply_to_cmid = 0)
    ∧ (∀ (lm : LegacyMarker) (api : VkApi) (g lg : GateState) (st : AgentState)
        (now_ts : Int),
        ((act cfg lm api g lg st now_ts).calls.all
          (fun c => (payloadGet c.2 "reply_to").isNone)) = true) := by
  constructor
  · intro d0 state_cmid
    unfold sanitize_decision
    dsimp only
    repeat' split
    all_goals intro hact
    all_goals simp_all
  · intro lm api g lg st now_ts
    unfold act
    dsimp only
    simp only [h, Bool.false_eq_true, if_false]
    repeat' split
    all_goals rfl

/-- C7 amended witness: a concrete `send_message` decision with a positive
`reply_to_cmid` under the disabled policy. -/
theorem reply_to_disabled_witness :
    (sanitize_decision { allow_thread_reply := false }
      (AgentDecision.from_value (PyValue.dict [("action", PyValue.str "send_message"),
        ("text", PyValue.str "hi"), ("reply_to_cmid", PyValue.int 7)])) 1).reply_to_cmid = 0
    ∧ ((act { allow_thread_reply := false } { installed := true }
        { request := fun _ _ => Except.ok (PyValue.int 5) } GateState.init GateState.init
        { peer_id := 2, decision := PyValue.dict [("action", PyValue.str "send_message"),
            ("text", PyValue.str "hi"), ("reply_to_cmid", PyValue.int 7)] } 3).calls.all
        (fun c => (payloadGet c.2 "reply_to").isNone)) = true :=
  ⟨(reply_to_disabled { allow_thread_reply := false } rfl).1
      (AgentDecision.from_value (PyValue.dict [("action", PyValue.str "send_message"),
        ("text", PyValue.str "hi"), ("reply_to_cmid", PyValue.int 7)])) 1 (by decide),
   (reply_to_disabled { allow_thread_reply := false } rfl).2 { installed := true }
      { request := fun _ _ => Except.ok (PyValue.int 5) } GateState.init GateState.init
      { peer_id := 2, decision := PyValue.dict [("action", PyValue.str "send_message"),
          ("text", PyValue.str "hi"), ("reply_to_cmid", PyValue.int 7)] } 3⟩

/-! ## `handle_incoming_message` as a small-step system

The coroutine is cut at its `await` suspension points (lock acquisition and
`graph.ainvoke`) into an explicit phase machine over two concurrent
invocations `A` (task id `false`) and `B` (task id `true`), with the
`asyncio.Lock` modelled as an owner plus a FIFO waiter queue per peer. -/

/-- An inbound message as `handle_incoming_message` and
`build_initial_state` read it. -/
structure Message where
  peer_id : Int := 0
  from_id : Int := 0
  text : String := ""
  conversation_message_id : Int := 0
deriving DecidableEq

/-- `AgentRuntimeService._is_message_eligible`. -/
def is_message_eligible (message : Message) : Bool :=
  let text := pyStrip message.text
  if text.length < 3 then false
  else if strStartsWith text "/" then false
  else if message.peer_id ≤ 0 ∨ message.from_id ≤ 0 then false
  else if message.peer_id = message.from_id then false
  else true

/-- `state.build_initial_state`. -/
def build_initial_state (message : Message) : AgentState :=
  { peer_id := if message.peer_id > 0 then message.peer_id else 0
    actor_id := if message.from_id > 0 then message.from_id else 0
    cmid := if message.conversation_message_id > 0 then
      message.conversation_message_id else 0
    text := pyStrip message.text }

/-- Where an invocation of `handle_incoming_message` currently is:
before its first step, suspended on the peer lock, inside the critical
section re-checking admission, suspended in `graph.ainvoke`, or finished
with its boolean result. -/
inductive TaskPhase where
  | ready
  | waitingLock
  | critical
  | invoking
  | done (result : Bool)
deriving DecidableEq

/-- A phase is inside the lock-protected region. -/
def TaskPhase.inCritical : TaskPhase → Bool
  | .critical => true
  | .invoking => true
  | _ => false

/-- Pointwise update of the per-peer lock owner map. -/
def updOwner (m : Int → Option Bool) (k : Int) (v : Option Bool) :
    Int → Option Bool :=
  fun x => if x = k then v else m x

/-- Pointwise update of the per-peer waiter queue map. -/
def updWaiters (m : Int → List Bool) (k : Int) (v : List Bool) :
    Int → List Bool :=
  fun x => if x = k then v else m x

/-- The shared state of two concurrent invocations: the gate maps, the
per-peer mutex (owner and FIFO waiters), the number of started
`graph.ainvoke` calls, the random-draw cursor, and both task phases. -/
structure SysState where
  gate : GateState
  lockOwner : Int → Option Bool
  lockWaiters : Int → List Bool
  invocations : Nat
  randIdx : Nat
  phaseA : TaskPhase
  phaseB : TaskPhase

/-- The phase of task `t`. -/
def SysState.phase (s : SysState) : Bool → TaskPhase
  | false => s.phaseA
  | true => s.phaseB

/-- Replace the phase of task `t`. -/
def SysState.setPhase (s : SysState) : Bool → TaskPhase → SysState
  | false, p => { s with phaseA := p }
  | true, p => { s with phaseB := p }

/-- Fresh system state: zeroed gate, free locks, both tasks ready. -/
def SysState.start : SysState :=
  { gate := GateState.init
    lockOwner := fun _ => Option.none
    lockWaiters := fun _ => []
    invocations := 0
    randIdx := 0
    phaseA := .ready
    phaseB := .ready }

/-- One scheduler step of task `t`, advancing one atomic block of
`handle_incoming_message` (lines 313–352): the synchronous prelude with the
counter increment and lock attempt, waking from the lock queue, the
double-checked admission inside the critical section (cooldown, minimum
messages, probability with one `random.random()` draw), and completion of
the abstract `graph.ainvoke` (which may itself update the gate, as `act`
does through `_mark_bot_activity`). -/
def step (cfg : RuntimeConfig) (now_ts : Int) (rands : Nat → ℚ)
    (graph : GateState → GateState × Except String PyValue)
    (msgA msgB : Message) (t : Bool) (s : SysState) : SysState :=
  let msg := match t with | false => msgA | true => msgB
  let peer := msg.peer_id
  match s.phase t with
  | .ready =>
    if ¬(cfg.enabled = true ∧ cfg.engine = "langgraph") then s.setPhase t (.done false)
    else if ¬ is_message_eligible msg = true then s.setPhase t (.done false)
    else
      let since := s.gate.messages_since_bot_by_peer
      let s := { s with gate := { s.gate with
        messages_since_bot_by_peer := updMap since peer (since peer + 1) } }
      if s.lockOwner peer = Option.none ∧ s.lockWaiters peer = [] then
        ({ s with lockOwner := updOwner s.lockOwner peer (some t) }).setPhase t .critical
      else
        ({ s with lockWaiters :=
          updWaiters s.lockWaiters peer (s.lockWaiters peer ++ [t]) }).setPhase t .waitingLock
  | .waitingLock =>
    if s.lockOwner peer = Option.none ∧ (s.lockWaiters peer).head? = some t then
      ({ s with lockOwner := updOwner s.lockOwner peer (some t)
                lockWaiters := updWaiters s.lockWaiters peer (s.lockWaiters peer).tail
        }).setPhase t .critical
    else s
  | .critical =>
    let cooldown := cfg.agent_cooldown_seconds
    let min_messages := cfg.agent_min_messages_since_bot
    let probability := cfg.agent_probability
    let last_bot_ts := s.gate.last_bot_message_ts_by_peer peer
    if cooldown > 0 ∧ now_ts - last_bot_ts < cooldown then
      ({ s with lockOwner := updOwner s.lockOwner peer Option.none }).setPhase t (.done false)
    else if s.gate.messages_since_bot_by_peer peer < min_messages then
      ({ s with lockOwner := updOwner s.lockOwner peer Option.none }).setPhase t (.done false)
    else if probability ≤ 0 then
      ({ s with lockOwner := updOwner s.lockOwner peer Option.none }).setPhase t (.done false)
    else if probability < 1 then
      let r := rands s.randIdx
      let s := { s with randIdx := s.randIdx + 1 }
      if r > probability then
        ({ s with lockOwner := updOwner s.lockOwner peer Option.none }).setPhase t (.done false)
      else ({ s with invocations := s.invocations + 1 }).setPhase t .invoking
    else ({ s with invocations := s.invocations + 1 }).setPhase t .invoking
  | .invoking =>
    let res := graph s.gate
    let executed := match res.2 with
      | .error _ => false
      | .ok result_state =>
        (AgentActionResult.from_value (payloadGet result_state "action_result")).executed
    (({ s with gate := res.1
               lockOwner := updOwner s.lockOwner peer Option.none
      }).setPhase t (.done executed))
  | .done _ => s

/-- Run a schedule (a list of task ids, each entry one `step`). -/
def runSched (cfg : RuntimeConfig) (now_ts : Int) (rands : Nat → ℚ)
    (graph : GateState → GateState × Except String PyValue)
    (msgA msgB : Message) : List Bool → SysState → SysState
  | [], s => s
  | t :: ts, s => runSched cfg now_ts rands graph msgA msgB ts
      (step cfg now_ts rands graph msgA msgB t s)

/-- C3 counterexample: with cooldown 0, minimum-messages 1 and probability 1,
invocation `B` arrives (schedule `[A, B]`) while `A` holds the conversation's
mutex inside the pipeline; `B` is queued on the lock (`waitingLock`), not
dropped with `false`, and after `A` finishes without acting, `B` runs the
pipeline too — two `graph.ainvoke` calls for one conversation. -/
theorem tryadmit_contention_counterexample :
    let cfg3 : RuntimeConfig :=
      { enabled := true
        engine := "langgraph"
        cooldown_seconds := 0
        min_messages_since_bot := 1
        probability := 1 }
    let msg : Message := { peer_id := 2, from_id := 7, text := "hello" }
    let graphNone : GateState → GateState × Except String PyValue :=
      fun g => (g, Except.ok (PyValue.dict
        [("action_result", AgentActionResult.to_dict {})]))
    let mid := runSched cfg3 0 (fun _ => 0) graphNone msg msg
      [false, true] SysState.start
    let fin := runSched cfg3 0 (fun _ => 0) graphNone msg msg
      [false, false, true, true, true] mid
    mid.phaseB = TaskPhase.waitingLock
    ∧ fin.invocations = 2
    ∧ fin.phaseB = TaskPhase.done false := by
  refine ⟨by decide, by decide, by decide⟩

/-- The lock invariant for two invocations of one conversation `p`: a task
inside the critical region owns the peer's mutex. -/
def lockInv (p : Int) (s : SysState) : Prop :=
  (s.phaseA.inCritical = true → s.lockOwner p = some false)
  ∧ (s.phaseB.inCritical = true → s.lockOwner p = some true)

theorem step_preserves_lockInv (cfg : RuntimeConfig) (now_ts : Int)
    (rands : Nat → ℚ) (graph : GateState → GateState × Except String PyValue)
    (msgA msgB : Message) (p : Int) (hA : msgA.peer_id = p)
    (hB : msgB.peer_id = p) (t : Bool) (s : SysState) (h : lockInv p s) :
    lockInv p (step cfg now_ts rands graph msgA msgB t s) := by
  obtain ⟨h1, h2⟩ := h
  unfold step lockInv
  cases t <;>
    dsimp only [SysState.phase, SysState.setPhase] <;>
    [cases hph : s.phaseA; cases hph : s.phaseB] <;>
    dsimp only [lockInv] <;>
    (repeat' split) <;>
    refine ⟨fun hc => ?_, fun hc => ?_⟩ <;>
    first
      | exact h1 hc
      | exact h2 hc
      | (simp_all [TaskPhase.inCritical, updOwner, updWaiters, hA, hB])

/-- C3 amended: what the mutex does guarantee — under every schedule of two
invocations for the same conversation, the two are never simultaneously
inside the lock-protected pipeline region (admission re-checks and
`graph.ainvoke` are serialized by the per-conversation lock). -/
theorem same_peer_mutual_exclusion (cfg : RuntimeConfig) (now_ts : Int)
    (rands : Nat → ℚ) (graph : GateState → GateState × Except String PyValue)
    (msgA msgB : Message) (p : Int) (hA : msgA.peer_id = p)
    (hB : msgB.peer_id = p) (sched : List Bool) :
    ¬((runSched cfg now_ts rands graph msgA msgB sched SysState.start).phaseA.inCritical
        = true
      ∧ (runSched cfg now_ts rands graph msgA msgB sched SysState.start).phaseB.inCritical
        = true) := by
  have hstart : lockInv p SysState.start := by
    constructor <;> intro hc <;> simp [SysState.start, TaskPhase.inCritical] at hc
  have hrun : ∀ (l : List Bool) (s : SysState), lockInv p s →
      lockInv p (runSched cfg now_ts rands graph msgA msgB l s) := by
    intro l
    induction l with
    | nil => intro s hs; exact hs
    | cons t ts ih =>
      intro s hs
      exact ih _ (step_preserves_lockInv cfg now_ts rands graph msgA msgB p hA hB t s hs)
  intro ⟨hcA, hcB⟩
  obtain ⟨i1, i2⟩ := hrun sched SysState.start hstart
  have e1 := i1 hcA
  have e2 := i2 hcB
  rw [e1] at e2
  exact Option.noConfusion e2 (fun hfb => Bool.noConfusion hfb)

/-- C3 amended witness: mutual exclusion on a concrete four-step schedule for
one conversation. -/
theorem same_peer_mutual_exclusion_witness :
    ¬((runSched { enabled := true, engine := "langgraph" } 0 (fun _ => 0)
        (fun g => (g, Except.ok (PyValue.dict [])))
        { peer_id := 2, from_id := 7, text := "hello" }
        { peer_id := 2, from_id := 7, text := "hello" }
        [false, true, false, true] SysState.start).phaseA.inCritical = true
      ∧ (runSched { enabled := true, engine := "langgraph" } 0 (fun _ => 0)
          (fun g => (g, Except.ok (PyValue.dict [])))
          { peer_id := 2, from_id := 7, text := "hello" }
          { peer_id := 2, from_id := 7, text := "hello" }
          [false, true, false, true] SysState.start).phaseB.inCritical = true) :=
  same_peer_mutual_exclusion { enabled := true, engine := "langgraph" } 0 (fun _ => 0)
    (fun g => (g, Except.ok (PyValue.dict [])))
    { peer_id := 2, from_id := 7, text := "hello" }
    { peer_id := 2, from_id := 7, text := "hello" } 2 rfl rfl
    [false, true, false, true]

/-- Round-trip of the `executed` flag through the stored dict. -/
theorem from_value_to_dict_executed (r : AgentActionResult) :
    (AgentActionResult.from_value (AgentActionResult.to_dict r)).executed
      = r.executed := rfl

/-- C5 counterexample: with the repository's legacy `mark_bot_activity`
installed (as `main.py` wires it), a successfully executed `send_message`
action does not reset the gate's `ctx.state` maps: the counter stays at 5 and
the timestamp at 0, while the reset lands in the legacy module's own store. -/
theorem gate_reset_counterexample :
    let g0 : GateState :=
      { last_bot_message_ts_by_peer := fun _ => 0
        messages_since_bot_by_peer := fun p => if p = 2 then 5 else 0 }
    let r := act { enabled := true, engine := "langgraph" } { installed := true }
      { request := fun _ _ => Except.ok (PyValue.int 77) } g0 GateState.init
      { peer_id := 2, decision := PyValue.dict
          [("action", PyValue.str "send_message"), ("text", PyValue.str "hi")] } 9
    (AgentActionResult.from_value r.action_result).executed = true
    ∧ r.gate.messages_since_bot_by_peer 2 = 5
    ∧ r.gate.last_bot_message_ts_by_peer 2 = 0
    ∧ r.legacy.messages_since_bot_by_peer 2 = 0
    ∧ r.legacy.last_bot_message_ts_by_peer 2 = 9 := by
  refine ⟨by decide, by decide, by decide, by decide, by decide⟩

/-- C5 amended: an eligible event (agent enabled, langgraph engine, graph
built) increments the conversation's `messages_since_bot` counter by exactly
one on intake, before and independent of gate admission.  After an executed
action, which store records the reset depends on `_mark_bot_activity`'s
delegation: without an installed legacy marker (or when it raises) the gate's
`ctx.state` maps are reset to `0`/`now`; with an installed, non-raising
legacy marker and a non-zero peer id, the reset lands in the legacy module's
own store and the gate maps are left untouched. -/
theorem gate_counter_protocol (cfg : RuntimeConfig) (now_ts : Int)
    (rands : Nat → ℚ) (graph : GateState → GateState × Except String PyValue)
    (msgA msgB : Message) (t : Bool) (s : SysState)
    (henabled : cfg.enabled = true) (hengine : cfg.engine = "langgraph")
    (helig : is_message_eligible (match t with | false => msgA | true => msgB) = true)
    (hready : s.phase t = TaskPhase.ready) :
    (step cfg now_ts rands graph msgA msgB t s).gate.messages_since_bot_by_peer
        (match t with | false => msgA | true => msgB).peer_id
      = s.gate.messages_since_bot_by_peer
          (match t with | false => msgA | true => msgB).peer_id + 1
    ∧ (∀ (lm : LegacyMarker) (api : VkApi) (g lg : GateState) (st : AgentState),
        (AgentActionResult.from_value
          (act cfg lm api g lg st now_ts).action_result).executed = true →
        ((lm.installed = false ∨ lm.raises st.peer_id = true) →
          (act cfg lm api g lg st now_ts).gate.messages_since_bot_by_peer
              st.peer_id = 0
          ∧ (act cfg lm api g lg st now_ts).gate.last_bot_message_ts_by_peer
              st.peer_id = now_ts)
        ∧ (lm.installed = true → lm.raises st.peer_id = false → st.peer_id ≠ 0 →
          (act cfg lm api g lg st now_ts).gate = g
          ∧ (act cfg lm api g lg st now_ts).legacy.messages_since_bot_by_peer
              st.peer_id = 0
          ∧ (act cfg lm api g lg st now_ts).legacy.last_bot_message_ts_by_peer
              st.peer_id = now_ts)) := by
  constructor
  · unfold step
    cases t <;>
      dsimp only [SysState.phase, SysState.setPhase] at hready ⊢ <;>
      rw [hready] <;>
      dsimp only <;>
      simp only [henabled, hengine, helig, and_self, not_true_eq_false,
        Bool.false_eq_true, if_false, reduceIte] <;>
      split <;>
      dsimp only [SysState.setPhase] <;>
      simp [updMap]
  · intro lm api g lg st
    unfold act
    dsimp only
    repeat' split
    all_goals intro hexec
    all_goals rw [from_value_to_dict_executed] at hexec
    all_goals (first
      | exact Bool.noConfusion hexec
      | (refine ⟨fun hcase => ?_, fun hinst hraises hpeer => ?_⟩
         · cases hcase with
           | inl hni => simp [mark_bot_activity, hni, updMap]
           | inr hr =>
              by_cases hi : lm.installed <;>
                simp [mark_bot_activity, hi, hr, updMap]
         · simp [mark_bot_activity, legacy_mark_bot_activity, hinst, hraises,
             hpeer, updMap]))

/-- C5 amended witness: a concrete eligible message; a concrete executed
action with no legacy marker (gate reset), and one with the installed legacy
marker (legacy-store reset, gate untouched). -/
theorem gate_counter_protocol_witness :
    (step { enabled := true, engine := "langgraph" } 9 (fun _ => 0)
        (fun g => (g, Except.ok (PyValue.dict [])))
        { peer_id := 2, from_id := 7, text := "hello" }
        { peer_id := 2, from_id := 7, text := "hello" } false
        SysState.start).gate.messages_since_bot_by_peer 2
      = SysState.start.gate.messages_since_bot_by_peer 2 + 1
    ∧ ((act { enabled := true, engine := "langgraph" } {}
          { request := fun _ _ => Except.ok (PyValue.int 77) } GateState.init
          GateState.init
          { peer_id := 2, decision := PyValue.dict
              [("action", PyValue.str "send_message"), ("text", PyValue.str "hi")] }
          9).gate.messages_since_bot_by_peer 2 = 0
        ∧ (act { enabled := true, engine := "langgraph" } {}
            { request := fun _ _ => Except.ok (PyValue.int 77) } GateState.init
            GateState.init
            { peer_id := 2, decision := PyValue.dict
                [("action", PyValue.str "send_message"), ("text", PyValue.str "hi")] }
            9).gate.last_bot_message_ts_by_peer 2 = 9)
    ∧ ((act { enabled := true, engine := "langgraph" } { installed := true }
          { request := fun _ _ => Except.ok (PyValue.int 77) } GateState.init
          GateState.init
          { peer_id := 2, decision := PyValue.dict
              [("action", PyValue.str "send_message"), ("text", PyValue.str "hi")] }
          9).gate = GateState.init
        ∧ (act { enabled := true, engine := "langgraph" } { installed := true }
            { request := fun _ _ => Except.ok (PyValue.int 77) } GateState.init
            GateState.init
            { peer_id := 2, decision := PyValue.dict
                [("action", PyValue.str "send_message"), ("text", PyValue.str "hi")] }
            9).legacy.messages_since_bot_by_peer 2 = 0
        ∧ (act { enabled := true, engine := "langgraph" } { installed := true }
            { request := fun _ _ => Except.ok (PyValue.int 77) } GateState.init
            GateState.init
            { peer_id := 2, decision := PyValue.dict
                [("action", PyValue.str "send_message"), ("text", PyValue.str "hi")] }
            9).legacy.last_bot_message_ts_by_peer 2 = 9) :=
  ⟨(gate_counter_protocol { enabled := true, engine := "langgraph" } 9 (fun _ => 0)
      (fun g => (g, Except.ok (PyValue.dict [])))
      { peer_id := 2, from_id := 7, text := "hello" }
      { peer_id := 2, from_id := 7, text := "hello" } false
      SysState.start rfl rfl (by decide) rfl).1,
   ((gate_counter_protocol { enabled := true, engine := "langgraph" } 9 (fun _ => 0)
      (fun g => (g, Except.ok (PyValue.dict [])))
      { peer_id := 2, from_id := 7, text := "hello" }
      { peer_id := 2, from_id := 7, text := "hello" } false
      SysState.start rfl rfl (by decide) rfl).2 {}
      { request := fun _ _ => Except.ok (PyValue.int 77) } GateState.init GateState.init
      { peer_id := 2, decision := PyValue.dict
          [("action", PyValue.str "send_message"), ("text", PyValue.str "hi")] }
      (by decide)).1 (Or.inl rfl),
   ((gate_counter_protocol { enabled := true, engine := "langgraph" } 9 (fun _ => 0)
      (fun g => (g, Except.ok (PyValue.dict [])))
      { peer_id := 2, from_id := 7, text := "hello" }
      { peer_id := 2, from_id := 7, text := "hello" } false
      SysState.start rfl rfl (by decide) rfl).2 { installed := true }
      { request := fun _ _ => Except.ok (PyValue.int 77) } GateState.init GateState.init
      { peer_id := 2, decision := PyValue.dict
          [("action", PyValue.str "send_message"), ("text", PyValue.str "hi")] }
      (by decide)).2 rfl rfl (by decide)⟩

/-! ## Checkpoint store (`agent/checkpoint.py`) -/

/-- The storage-touching effects of `AgentCheckpoint`: directory creation,
opening the sqlite connection, the saver's schema `setup()`, and closing the
connection. -/
inductive CheckpointEffect where
  | makedirs (folder : String)
  | connect (path : String)
  | setup
  | close
deriving DecidableEq

/-- `os.path.dirname` on a POSIX path: everything before the last slash
(the leading-slash normalization for root paths is not modelled; it is
irrelevant to the properties proved here). -/
def pathDirname (p : String) : String :=
  let l := p.toList
  if l.contains '/' then
    String.mk (((l.reverse.dropWhile (fun c => c != '/')).drop 1).reverse)
  else ""

/-- `checkpoint.AgentCheckpoint`: the configured path, the optional open
connection and the optional saver, with handles as numbers
(`AsyncSqliteSaver(conn)` is identified with its connection handle). -/
structure AgentCheckpoint where
  db_path : String
  conn : Option Nat := Option.none
  saver : Option Nat := Option.none
deriving DecidableEq

/-- `AgentCheckpoint.__init__` (`str(db_path or "data/langgraph_agent.sqlite3")`). -/
def AgentCheckpoint.create (db_path : String) : AgentCheckpoint :=
  { db_path := if db_path = "" then "data/langgraph_agent.sqlite3" else db_path }

/-- `AgentCheckpoint.start`: return the existing saver untouched when one is
present; otherwise create the folder, open the connection supplied by the
runtime (`freshConn`), build the saver and run its schema setup.  Returns the
saver handle, the updated object, and the storage effects performed. -/
def AgentCheckpoint.start (cp : AgentCheckpoint) (freshConn : Nat) :
    Nat × AgentCheckpoint × List CheckpointEffect :=
  match cp.saver with
  | some s => (s, cp, [])
  | Option.none =>
    let folder := pathDirname cp.db_path
    let dirEffects :=
      if folder ≠ "" then [CheckpointEffect.makedirs folder] else []
    (freshConn,
      { cp with conn := some freshConn, saver := some freshConn },
      dirEffects ++ [CheckpointEffect.connect cp.db_path, CheckpointEffect.setup])

/-- `AgentCheckpoint.stop`: drop the saver and close any open connection. -/
def AgentCheckpoint.stop (cp : AgentCheckpoint) :
    AgentCheckpoint × List CheckpointEffect :=
  ({ cp with saver := Option.none, conn := Option.none },
    match cp.conn with
    | some _ => [CheckpointEffect.close]
    | Option.none => [])

/-- C9: `start` is idempotent — after any `start`, a second `start` returns
the same saver handle, leaves the object unchanged, and performs no storage
effects (no reconnect, no schema reinitialization). -/
theorem checkpoint_start_idempotent (cp : AgentCheckpoint) (f1 f2 : Nat) :
    ((cp.start f1).2.1.start f2).1 = (cp.start f1).1
    ∧ ((cp.start f1).2.1.start f2).2.1 = (cp.start f1).2.1
    ∧ ((cp.start f1).2.1.start f2).2.2 = [] := by
  unfold AgentCheckpoint.start
  cases h : cp.saver <;> simp [h]

end WinnerOfDay
